import Mathlib

/-!
Verification of the MRZ Validation & Risk Scoring Engine
(`src/infrastructure/rules/passport_rules.py`).

Shallow embedding conventions:
* Python strings are `List Char` (`Str`); character classification is done on
  `Char.toNat` code points (ASCII model of `str.upper` / `str.strip` /
  `str.isdigit`).
* Python `datetime.date` is `PyDate`; the fallible constructor `date(y, m, d)`
  is `mkPyDate`, returning `none` where Python raises `ValueError`.
* Machine floats of the risk aggregator are modelled by `ℚ`; `round(x, 3)`
  is rational round-half-to-even at three decimals.
* `date.today()` is an explicit `today : PyDate` parameter of the engine.
* Python exceptions inside a rule are modelled by `Except String`; the real
  rules are total and wrapped in `Except.ok`.
-/

namespace FraudDoc

abbrev Str := List Char

/-- ASCII code-point view of a character. -/
def code (c : Char) : Nat := c.toNat

/-- Python `str.strip` whitespace class (ASCII part): space, \t, \n, \r, \v, \f. -/
def isPySpace (c : Char) : Bool :=
  code c = 32 ∨ code c = 9 ∨ code c = 10 ∨ code c = 13 ∨ code c = 11 ∨ code c = 12

/-- ASCII model of Python `str.isdigit` on a single character. -/
def pyIsDigit (c : Char) : Bool := 48 ≤ code c ∧ code c ≤ 57

/-- ASCII model of Python `str.upper` on a single character. -/
def pyUpperChar (c : Char) : Char :=
  if 97 ≤ code c ∧ code c ≤ 122 then Char.ofNat (code c - 32) else c

/-- Python `s.strip()`: drop leading and trailing whitespace. -/
def pyStrip (s : Str) : Str :=
  ((s.dropWhile isPySpace).reverse.dropWhile isPySpace).reverse

/-- Python `s.upper()`. -/
def pyUpper (s : Str) : Str := s.map pyUpperChar

/-- Python `s.replace(" ", "")`: removes ASCII spaces only. -/
def removeSpaces (s : Str) : Str := s.filter (fun c => code c ≠ 32)

/-- Python `s.replace("<", "")`. -/
def removeFillers (s : Str) : Str := s.filter (fun c => code c ≠ 60)

/-- The normalization `line.strip().upper().replace(" ", "")` used by `parse_mrz_td3`. -/
def normalizeLine (s : Str) : Str := removeSpaces (pyUpper (pyStrip s))

/-- Python slice `l[a:b]` (for `a ≤ b`; clamps like Python). -/
def sub (l : Str) (a b : Nat) : Str := (l.drop a).take (b - a)

/-- `int(s)` on a string of ASCII digits. -/
def strToNat (s : Str) : Nat := s.foldl (fun a c => a * 10 + (code c - 48)) 0

-- ── ICAO 9303 MRZ character values and weights ──────────────────────

/-- The `MRZ_CHAR_VALUES` dictionary: digits map to themselves, `A`..`Z` to
10..35, `<` to 0; `dict.get`'s default maps everything else to 0. -/
def MRZ_CHAR_VALUES (c : Char) : Nat :=
  if pyIsDigit c then code c - 48
  else if 65 ≤ code c ∧ code c ≤ 90 then code c - 55
  else if code c = 60 then 0
  else 0

def MRZ_WEIGHTS : List Nat := [7, 3, 1]

/-- `MRZ_WEIGHTS[i % 3]`. -/
def mrzWeight (i : Nat) : Nat := MRZ_WEIGHTS.getD (i % 3) 0

/-- The loop of `mrz_check_digit`, accumulating from position `i`.
Each character is upper-cased (`char.upper()`) before the table lookup. -/
def mrzSumAux (i : Nat) : Str → Nat
  | [] => 0
  | c :: cs => MRZ_CHAR_VALUES (pyUpperChar c) * mrzWeight i + mrzSumAux (i + 1) cs

/-- `mrz_check_digit(data)`: ICAO 9303 mod-10 weighted checksum. -/
def mrz_check_digit (s : Str) : Nat := mrzSumAux 0 s % 10

-- ── Python dates ────────────────────────────────────────────────────

/-- Model of `datetime.date` (a valid one when built by `mkPyDate`). -/
structure PyDate where
  year : Nat
  month : Nat
  day : Nat
deriving DecidableEq

def isLeap (y : Nat) : Bool := y % 4 = 0 ∧ (y % 100 ≠ 0 ∨ y % 400 = 0)

def daysInMonth (y m : Nat) : Nat :=
  if m = 2 then (if isLeap y then 29 else 28)
  else if m = 4 ∨ m = 6 ∨ m = 9 ∨ m = 11 then 30
  else 31

/-- `date(y, m, d)`: `none` exactly where Python raises `ValueError`. -/
def mkPyDate (y m d : Nat) : Option PyDate :=
  if 1 ≤ y ∧ y ≤ 9999 ∧ 1 ≤ m ∧ m ≤ 12 ∧ 1 ≤ d ∧ d ≤ daysInMonth y m then
    some ⟨y, m, d⟩
  else none

/-- Proleptic-Gregorian day number (days since 1970-01-01); standard
civil-from-days algorithm, models `date` ordering and subtraction. -/
def daysFromCivil (dt : PyDate) : Int :=
  let y : Int := if dt.month ≤ 2 then (dt.year : Int) - 1 else (dt.year : Int)
  let era : Int := y / 400
  let yoe : Int := y - era * 400
  let mp : Int := ((dt.month : Int) + 9) % 12
  let doy : Int := (153 * mp + 2) / 5 + (dt.day : Int) - 1
  let doe : Int := yoe * 365 + yoe / 4 - yoe / 100 + doy
  era * 146097 + doe - 719468

/-- `(a - b).days` on dates. -/
def dateSubDays (a b : PyDate) : Int := daysFromCivil a - daysFromCivil b

/-- `str(date)` rendering `YYYY-MM-DD`. -/
def padNat (w n : Nat) : String :=
  let s := toString n
  String.mk (List.replicate (w - s.length) '0') ++ s

def dateStr (d : PyDate) : String :=
  padNat 4 d.year ++ "-" ++ padNat 2 d.month ++ "-" ++ padNat 2 d.day

/-- `parse_mrz_date(date_str)`: `YYMMDD`, century rule 00-29 → 2000s, else 1900s. -/
def parse_mrz_date (s : Str) : Option PyDate :=
  if s.length = 6 ∧ s.all pyIsDigit then
    let yy := strToNat (sub s 0 2)
    let mm := strToNat (sub s 2 4)
    let dd := strToNat (sub s 4 6)
    let year := if yy < 30 then 2000 + yy else 1900 + yy
    mkPyDate year mm dd
  else none

-- ── The parsed MRZ record ───────────────────────────────────────────

/-- `MRZParsed` dataclass with its field defaults. -/
structure MRZParsed where
  document_code : Str := []
  issuing_country : Str := []
  primary_identifier : Str := []
  secondary_identifier : Str := []
  document_number : Str := []
  document_number_check : Int := -1
  nationality : Str := []
  date_of_birth : Str := []
  dob_check : Int := -1
  sex : Str := []
  date_of_expiry : Str := []
  doe_check : Int := -1
  personal_number : Str := []
  personal_number_check : Int := -1
  composite_check : Int := -1
  raw_line1 : Str := []
  raw_line2 : Str := []
  is_valid_format : Bool := false
deriving DecidableEq

/-- `int(l[i]) if l[i].isdigit() else -1` (the index accesses in
`parse_mrz_td3` are guarded by the length checks, so `Option` lookup is
equivalent). -/
def checkIntAt (l : Str) (i : Nat) : Int :=
  match l[i]? with
  | some c => if pyIsDigit c then ((code c - 48 : Nat) : Int) else -1
  | none => -1

/-- Python `names_section.split("<<")` (greedy left-to-right on `List Char`). -/
def splitSep : Str → List Str
  | [] => [[]]
  | '<' :: '<' :: rest => [] :: splitSep rest
  | c :: rest =>
    match splitSep rest with
    | g :: gs => (c :: g) :: gs
    | [] => [[c]]

/-- `part.replace("<", " ").strip()` applied to a name part. -/
def cleanName (p : Str) : Str :=
  pyStrip (p.map (fun c => if code c = 60 then ' ' else c))

/-- The field extraction of `parse_mrz_td3` on the normalized lines
(only reached when both have length ≥ 40). -/
def parseFields (l1 l2 line1 line2 : Str) : MRZParsed :=
  let name_parts := splitSep (l1.drop 5)
  { document_code := removeFillers (sub l1 0 2)
    issuing_country := sub l1 2 5
    primary_identifier :=
      if 2 ≤ name_parts.length then cleanName (name_parts.getD 0 [])
      else if name_parts.length = 1 then cleanName (name_parts.getD 0 [])
      else []
    secondary_identifier :=
      if 2 ≤ name_parts.length then cleanName (name_parts.getD 1 []) else []
    document_number := removeFillers (sub l2 0 9)
    document_number_check := checkIntAt l2 9
    nationality := sub l2 10 13
    date_of_birth := sub l2 13 19
    dob_check := checkIntAt l2 19
    sex := sub l2 20 21
    date_of_expiry := sub l2 21 27
    doe_check := checkIntAt l2 27
    personal_number := removeFillers (sub l2 28 42)
    personal_number_check := if 42 < l2.length then checkIntAt l2 42 else -1
    composite_check := if 43 < l2.length then checkIntAt l2 43 else -1
    raw_line1 := line1
    raw_line2 := line2
    is_valid_format := true }

/-- `parse_mrz_td3(line1, line2)`. -/
def parse_mrz_td3 (line1 line2 : Str) : MRZParsed :=
  if (normalizeLine line1).length < 40 ∨ (normalizeLine line2).length < 40 then
    { raw_line1 := line1, raw_line2 := line2 }
  else
    parseFields (normalizeLine line1) (normalizeLine line2) line1 line2

-- ── Field maps and the rule catalog ─────────────────────────────────

/-- The normalized field map (semantic name → OCR text). -/
abbrev Fields := List (String × Str)

/-- `fields.get(k, "")`. -/
def fget (fields : Fields) (k : String) : Str :=
  match fields.find? (fun kv => kv.1 = k) with
  | some kv => kv.2
  | none => []

/-- A rule violation as appended by `apply`. -/
structure RuleViolation where
  rule_id : String
  rule_name : String
  severity : String
  detail : String
deriving DecidableEq

/-- `l.startswith("P")` on an upper-cased line. -/
def startsWithP (l : Str) : Bool :=
  match l with
  | c :: _ => code c = 80
  | [] => false

/-- `_rule_mrz_format`. -/
def rule_mrz_format (fields : Fields) (_mrz : Option MRZParsed) : List (String × String) :=
  let l1 := fget fields "mrz_upper_line"
  let l2 := fget fields "mrz_lower_line"
  (if l1.isEmpty then [("CRITICAL", "MRZ line 1 not found")]
   else if (pyStrip l1).length < 40 then
     [("HIGH", s!"MRZ line 1 too short: {(pyStrip l1).length} chars (expected 44)")]
   else [])
  ++ (if l2.isEmpty then [("CRITICAL", "MRZ line 2 not found")]
      else if (pyStrip l2).length < 40 then
        [("HIGH", s!"MRZ line 2 too short: {(pyStrip l2).length} chars (expected 44)")]
      else [])
  ++ (if l1.isEmpty = false ∧ startsWithP (pyUpper (pyStrip l1)) = false then
        [("MEDIUM", s!"MRZ line 1 should start with P, got {String.mk (sub l1 0 2)}")]
      else [])

/-- `_rule_doc_number_check`. -/
def rule_doc_number_check (_fields : Fields) (mrz : Option MRZParsed) : List (String × String) :=
  match mrz with
  | none => []
  | some m =>
    if m.is_valid_format = false then []
    else
      let l2 := pyUpper (pyStrip m.raw_line2)
      if l2.length < 10 then []
      else
        let expected := mrz_check_digit (sub l2 0 9)
        if m.document_number_check ≠ (expected : Int) then
          [("CRITICAL", s!"Doc number check: got {m.document_number_check}, expected {expected}")]
        else []

/-- `_rule_dob_check`. -/
def rule_dob_check (_fields : Fields) (mrz : Option MRZParsed) : List (String × String) :=
  match mrz with
  | none => []
  | some m =>
    if m.is_valid_format = false then []
    else
      let l2 := pyUpper (pyStrip m.raw_line2)
      if l2.length < 20 then []
      else
        let expected := mrz_check_digit (sub l2 13 19)
        if m.dob_check ≠ (expected : Int) then
          [("CRITICAL", s!"DOB check: got {m.dob_check}, expected {expected}")]
        else []

/-- `_rule_doe_check`. -/
def rule_doe_check (_fields : Fields) (mrz : Option MRZParsed) : List (String × String) :=
  match mrz with
  | none => []
  | some m =>
    if m.is_valid_format = false then []
    else
      let l2 := pyUpper (pyStrip m.raw_line2)
      if l2.length < 28 then []
      else
        let expected := mrz_check_digit (sub l2 21 27)
        if m.doe_check ≠ (expected : Int) then
          [("CRITICAL", s!"DOE check: got {m.doe_check}, expected {expected}")]
        else []

/-- `_rule_personal_number_check`. -/
def rule_personal_number_check (_fields : Fields) (mrz : Option MRZParsed) : List (String × String) :=
  match mrz with
  | none => []
  | some m =>
    if m.is_valid_format = false then []
    else
      let l2 := pyUpper (pyStrip m.raw_line2)
      if l2.length < 43 then []
      else
        let pn := sub l2 28 42
        if (removeFillers pn).isEmpty then []
        else
          let expected := mrz_check_digit pn
          if m.personal_number_check ≠ (expected : Int) then
            [("HIGH", s!"Personal number check: got {m.personal_number_check}, expected {expected}")]
          else []

/-- `_rule_composite_check`. -/
def rule_composite_check (_fields : Fields) (mrz : Option MRZParsed) : List (String × String) :=
  match mrz with
  | none => []
  | some m =>
    if m.is_valid_format = false then []
    else
      let l2 := pyUpper (pyStrip m.raw_line2)
      if l2.length < 44 then []
      else
        let composite_data := sub l2 0 10 ++ sub l2 13 20 ++ sub l2 21 43
        let expected := mrz_check_digit composite_data
        if m.composite_check ≠ (expected : Int) then
          [("CRITICAL", s!"Composite check: got {m.composite_check}, expected {expected}")]
        else []

/-- `VALID_COUNTRY_CODES` (ISO 3166-1 alpha-3 subset; UTO is the ICAO test code). -/
def VALID_COUNTRY_CODES : List String :=
  ["AFG", "ALB", "DZA", "AND", "AGO", "ARG", "ARM", "AUS", "AUT",
   "AZE", "BHS", "BHR", "BGD", "BRB", "BLR", "BEL", "BLZ", "BEN",
   "BTN", "BOL", "BIH", "BWA", "BRA", "BRN", "BGR", "BFA", "BDI",
   "KHM", "CMR", "CAN", "CPV", "CAF", "TCD", "CHL", "CHN", "COL",
   "COG", "CRI", "HRV", "CUB", "CYP", "CZE", "DNK", "DJI", "DOM",
   "ECU", "EGY", "SLV", "GNQ", "ERI", "EST", "ETH", "FIN", "FRA",
   "GAB", "GMB", "GEO", "DEU", "GHA", "GRC", "GTM", "GIN", "GUY",
   "HTI", "HND", "HUN", "ISL", "IND", "IDN", "IRN", "IRQ", "IRL",
   "ISR", "ITA", "JAM", "JPN", "JOR", "KAZ", "KEN", "KWT", "KGZ",
   "LAO", "LVA", "LBN", "LSO", "LBR", "LBY", "LIE", "LTU", "LUX",
   "MDG", "MWI", "MYS", "MDV", "MLI", "MLT", "MRT", "MUS", "MEX",
   "MDA", "MCO", "MNG", "MNE", "MAR", "MOZ", "MMR", "NAM", "NPL",
   "NLD", "NZL", "NIC", "NER", "NGA", "NOR", "OMN", "PAK", "PAN",
   "PRY", "PER", "PHL", "POL", "PRT", "QAT", "ROU", "RUS", "RWA",
   "SAU", "SEN", "SRB", "SGP", "SVK", "SVN", "SOM", "ZAF", "KOR",
   "ESP", "LKA", "SDN", "SUR", "SWZ", "SWE", "CHE", "SYR", "TWN",
   "TJK", "TZA", "THA", "TGO", "TTO", "TUN", "TUR", "TKM", "UGA",
   "UKR", "ARE", "GBR", "USA", "URY", "UZB", "VEN", "VNM", "YEM",
   "ZMB", "ZWE", "UTO"]

def validCountry (s : Str) : Bool := VALID_COUNTRY_CODES.contains (String.mk s)

/-- `_rule_country_code`. -/
def rule_country_code (_fields : Fields) (mrz : Option MRZParsed) : List (String × String) :=
  match mrz with
  | none => []
  | some m =>
    if m.is_valid_format = false then []
    else
      let issuing := removeFillers m.issuing_country
      let natl := removeFillers m.nationality
      (if issuing.isEmpty = false ∧ validCountry issuing = false then
         [("HIGH", s!"Invalid issuing country: {String.mk issuing}")]
       else [])
      ++ (if natl.isEmpty = false ∧ validCountry natl = false then
            [("HIGH", s!"Invalid nationality: {String.mk natl}")]
          else [])

/-- Rounding of a rational to the nearest integer, ties to even
(Python `round` / float `:.0f` formatting model). -/
def roundHalfEvenInt (q : ℚ) : Int :=
  let f := ⌊q⌋
  if q - (f : ℚ) < 1 / 2 then f
  else if (1 : ℚ) / 2 < q - (f : ℚ) then f + 1
  else if f % 2 = 0 then f else f + 1

/-- `_rule_date_plausibility` with `date.today()` passed explicitly. -/
def rule_date_plausibility (today : PyDate) (_fields : Fields) (mrz : Option MRZParsed) :
    List (String × String) :=
  match mrz with
  | none => []
  | some m =>
    if m.is_valid_format = false then []
    else
      let dob? := parse_mrz_date m.date_of_birth
      let doe? := parse_mrz_date m.date_of_expiry
      let vDob :=
        match dob? with
        | none => []
        | some dob =>
          -- `(today - dob).days / 365.25 > 150` is exact on integer day counts
          -- since 365.25 = 1461/4; stated as `days * 4 > 150 * 1461`.
          (if daysFromCivil today < daysFromCivil dob then
             [("CRITICAL", s!"DOB in future: {dateStr dob}")]
           else [])
          ++ (if 150 * 1461 < dateSubDays today dob * 4 then
                [("HIGH", s!"Implausible age: {dateSubDays today dob * 4 / 1461} years")]
              else [])
      let vDoe :=
        match doe? with
        | none => []
        | some doe =>
          (if daysFromCivil doe < daysFromCivil today then
             [("CRITICAL", s!"Document expired: {dateStr doe}")]
           else [])
          ++ (if 15 * 1461 < dateSubDays doe today * 4 then
                [("HIGH", s!"Expiry too far: {dateStr doe} ({dateSubDays doe today * 4 / 1461}y)")]
              else [])
      let vCross :=
        match dob?, doe? with
        | some dob, some doe =>
          if daysFromCivil doe ≤ daysFromCivil dob then [("CRITICAL", "DOB after DOE")] else []
        | _, _ => []
      vDob ++ vDoe ++ vCross

def REQUIRED_FIELD_NAMES : List String :=
  ["mrz_upper_line", "mrz_lower_line", "primary_identifier", "date_of_birth", "document_number"]

/-- `_rule_required_fields`. -/
def rule_required_fields (fields : Fields) (_mrz : Option MRZParsed) : List (String × String) :=
  (REQUIRED_FIELD_NAMES.map (fun f =>
    let val := fget fields f
    if val.isEmpty ∨ String.mk (pyStrip val) = "" ∨ String.mk (pyStrip val) = "[bbox_present]" then
      [(("HIGH" : String), s!"Required field missing: {f}")]
    else [])).flatten

/-- Document-number part of `_rule_cross_check`. -/
def crossCheckDoc (fields : Fields) (m : MRZParsed) : List (String × String) :=
  let viz_doc := pyUpper (removeSpaces (pyStrip (fget fields "document_number")))
  let mrz_doc := pyUpper (removeFillers m.document_number)
  if viz_doc.isEmpty = false ∧ String.mk viz_doc ≠ "[BBOX_PRESENT]" ∧ mrz_doc.isEmpty = false
      ∧ viz_doc ≠ mrz_doc then
    [("CRITICAL", s!"Doc# mismatch: VIZ={String.mk viz_doc} vs MRZ={String.mk mrz_doc}")]
  else []

/-- Surname part of `_rule_cross_check` (first three characters). -/
def crossCheckName (fields : Fields) (m : MRZParsed) : List (String × String) :=
  let viz_name := pyUpper (pyStrip (fget fields "primary_identifier"))
  let mrz_name := pyUpper m.primary_identifier
  if viz_name.isEmpty = false ∧ String.mk viz_name ≠ "[BBOX_PRESENT]" ∧ mrz_name.isEmpty = false
      ∧ viz_name.take 3 ≠ mrz_name.take 3 then
    [("HIGH", s!"Surname mismatch: VIZ={String.mk viz_name} vs MRZ={String.mk mrz_name}")]
  else []

/-- Sex part of `_rule_cross_check` (first characters compared). -/
def crossCheckSex (fields : Fields) (m : MRZParsed) : List (String × String) :=
  let viz_sex := pyUpper (pyStrip (fget fields "sex"))
  if viz_sex.isEmpty = false ∧ String.mk viz_sex ≠ "[BBOX_PRESENT]" ∧ m.sex.isEmpty = false
      ∧ viz_sex.getD 0 ' ' ≠ m.sex.getD 0 ' ' then
    [("HIGH", s!"Sex mismatch: VIZ={String.mk viz_sex} vs MRZ={String.mk m.sex}")]
  else []

/-- `re.findall(r"\d+", s)` (ASCII): maximal runs of digits, left to right. -/
def digitGroupsAux (acc : Str) : Str → List Str
  | [] => if acc.isEmpty then [] else [acc.reverse]
  | c :: cs =>
    if pyIsDigit c then digitGroupsAux (c :: acc) cs
    else if acc.isEmpty then digitGroupsAux [] cs
    else acc.reverse :: digitGroupsAux [] cs

def digitGroups (s : Str) : List Str := digitGroupsAux [] s

/-- `date(y, m, d)` as built from the first three numeric groups of the VIZ
birth-date string, with the two-digit-year century rule applied. -/
def vizDobDate (g : List Str) : Option PyDate :=
  let d := strToNat (g.getD 0 [])
  let mm := strToNat (g.getD 1 [])
  let y0 := strToNat (g.getD 2 [])
  let y := if y0 < 100 then (if y0 < 30 then 2000 + y0 else 1900 + y0) else y0
  mkPyDate y mm d

/-- Birth-date part of `_rule_cross_check`; an unparsable VIZ date is skipped
(the `except (ValueError, TypeError): pass` branch is the `none` case of
`vizDobDate`). -/
def crossCheckDob (fields : Fields) (m : MRZParsed) : List (String × String) :=
  let viz_dob := pyStrip (fget fields "date_of_birth")
  if viz_dob.isEmpty = false ∧ String.mk viz_dob ≠ "[BBOX_PRESENT]" ∧ m.date_of_birth.isEmpty = false then
    match parse_mrz_date m.date_of_birth with
    | none => []
    | some mrz_dob =>
      let dob_nums := digitGroups viz_dob
      if dob_nums.length < 3 then []
      else
        match vizDobDate dob_nums with
        | none => []
        | some viz_date =>
          if viz_date ≠ mrz_dob then
            [("CRITICAL", s!"DOB mismatch: VIZ={String.mk viz_dob} vs MRZ={dateStr mrz_dob}")]
          else []
  else []

/-- `_rule_cross_check`: the four VIZ↔MRZ comparisons in source order. -/
def rule_cross_check (fields : Fields) (mrz : Option MRZParsed) : List (String × String) :=
  match mrz with
  | none => []
  | some m =>
    if m.is_valid_format = false then []
    else crossCheckDoc fields m ++ crossCheckName fields m ++ crossCheckSex fields m
         ++ crossCheckDob fields m

-- ── The engine: rule loop, failed set, risk aggregation ─────────────

/-- A rule that may raise: the `try`-body either returns `(severity, detail)`
pairs or raises an exception message. -/
abbrev RuleFn := Fields → Option MRZParsed → Except String (List (String × String))

/-- `(rule_id, rule_name, rule_fn)`. -/
abbrev RuleSpec := String × String × RuleFn

/-- `set.add` modelled on an insertion-ordered duplicate-free list. -/
def insertIfAbsent (s : List String) (x : String) : List String :=
  if x ∈ s then s else s ++ [x]

/-- The `for rule_id, rule_name, rule_fn in self._rules` loop of `apply`,
threading the violation list and the `rules_failed_set`.  On an exception a
single LOW violation is recorded and the id is NOT added to the failed set
(mirrors the source). -/
def runRulesFrom (fields : Fields) (mrz : Option MRZParsed) :
    List RuleSpec → List RuleViolation → List String → List RuleViolation × List String
  | [], vs, fs => (vs, fs)
  | r :: rest, vs, fs =>
    match r.2.2 fields mrz with
    | Except.ok rvs =>
        runRulesFrom fields mrz rest
          (vs ++ rvs.map (fun sd => ⟨r.1, r.2.1, sd.1, sd.2⟩))
          (rvs.foldl (fun s _ => insertIfAbsent s r.1) fs)
    | Except.error e =>
        runRulesFrom fields mrz rest
          (vs ++ [⟨r.1, r.2.1, "LOW", "Rule execution error: " ++ e⟩]) fs

def runRules (rules : List RuleSpec) (fields : Fields) (mrz : Option MRZParsed) :
    List RuleViolation × List String :=
  runRulesFrom fields mrz rules [] []

/-- The catalog `self._rules` (ten rules, source order). -/
def passportRules (today : PyDate) : List RuleSpec :=
  [("MRZ_FORMAT", "MRZ Format Validation", fun f m => Except.ok (rule_mrz_format f m)),
   ("DOC_NUM_CHECK", "Document Number Checksum", fun f m => Except.ok (rule_doc_number_check f m)),
   ("DOB_CHECK", "Date of Birth Checksum", fun f m => Except.ok (rule_dob_check f m)),
   ("DOE_CHECK", "Date of Expiry Checksum", fun f m => Except.ok (rule_doe_check f m)),
   ("PN_CHECK", "Personal Number Checksum", fun f m => Except.ok (rule_personal_number_check f m)),
   ("COMPOSITE_CHECK", "Composite Checksum", fun f m => Except.ok (rule_composite_check f m)),
   ("COUNTRY_CODE", "Country Code Validation", fun f m => Except.ok (rule_country_code f m)),
   ("DATE_PLAUSIBILITY", "Date Plausibility", fun f m => Except.ok (rule_date_plausibility today f m)),
   ("REQUIRED_FIELDS", "Required Fields Presence", fun f m => Except.ok (rule_required_fields f m)),
   ("CROSS_CHECK", "VIZ - MRZ Cross-Check", fun f m => Except.ok (rule_cross_check f m))]

/-- `sev_weights.get(v.severity, 0)`. -/
def sevWeight (s : String) : ℚ :=
  if s = "CRITICAL" then 3
  else if s = "HIGH" then 2
  else if s = "MEDIUM" then 1
  else if s = "LOW" then 1 / 2
  else 0

def totalWeight (vs : List RuleViolation) : ℚ :=
  (vs.map (fun v => sevWeight v.severity)).sum

/-- `round(x, 3)`. -/
def round3 (q : ℚ) : ℚ := (roundHalfEvenInt (q * 1000) : ℚ) / 1000

/-- Risk level thresholds on the (unrounded) score. -/
def riskLevelOf (score : ℚ) : String :=
  if 7 / 10 ≤ score then "CRITICAL"
  else if 4 / 10 ≤ score then "HIGH"
  else if 2 / 10 ≤ score then "MEDIUM"
  else "LOW"

/-- `RulesResult`. -/
structure RulesResult where
  rules_passed : Nat
  rules_failed : Nat
  rules_total : Nat
  violations : List RuleViolation
  risk_score : ℚ
  risk_level : String
  rules_version : String
deriving DecidableEq

def RULES_VERSION : String := "passport-v1.0"

/-- The `if l1 and l2: mrz = parse_mrz_td3(l1, l2)` step of `apply`. -/
def mrzOf (fields : Fields) : Option MRZParsed :=
  let l1 := fget fields "mrz_upper_line"
  let l2 := fget fields "mrz_lower_line"
  if l1.isEmpty = false ∧ l2.isEmpty = false then some (parse_mrz_td3 l1 l2) else none

/-- `PassportRulesEngine.apply` on an already-normalized field map
(the field-set adapter has produced `fields`); `date.today()` is `today`. -/
def apply (today : PyDate) (fields : Fields) : RulesResult :=
  let res := runRules (passportRules today) fields (mrzOf fields)
  let violations := res.1
  let rules_total := (passportRules today).length
  let rules_failed := res.2.length
  let risk_score := min 1 (totalWeight violations / 15)
  { rules_passed := rules_total - rules_failed
    rules_failed := rules_failed
    rules_total := rules_total
    violations := violations
    risk_score := round3 risk_score
    risk_level := riskLevelOf risk_score
    rules_version := RULES_VERSION }

-- ── Claim-side (spec-worded) definitions ────────────────────────────

/-- C1 claim-side character value, exactly as the claim words it: digits map
to themselves, `A`=10..`Z`=35, `<`=0, any other character 0 (no upper-casing). -/
def specCharValue (c : Char) : Nat :=
  if pyIsDigit c then code c - 48
  else if 65 ≤ code c ∧ code c ≤ 90 then code c - 55
  else if code c = 60 then 0
  else 0

/-- C1 claim-side weight: 7, 3, 1 cycling by `i % 3`. -/
def specWeight (i : Nat) : Nat := if i % 3 = 0 then 7 else if i % 3 = 1 then 3 else 1

/-- C1 claim-side check digit: sum of `value(char) * weight(i)` mod 10. -/
def specCheckDigit (s : Str) : Nat :=
  ((s.enum.map (fun ic => specCharValue ic.2 * specWeight ic.1)).sum) % 10

/-- C1 amended claim-side check digit: each character is upper-cased before
the value mapping (as the code does). -/
def specCheckDigitUpper (s : Str) : Nat :=
  ((s.enum.map (fun ic => specCharValue (pyUpperChar ic.2) * specWeight ic.1)).sum) % 10

/-- A character of the MRZ alphabet: digit, uppercase letter, or filler `<`. -/
def isMrzChar (c : Char) : Bool :=
  pyIsDigit c ∨ (65 ≤ code c ∧ code c ≤ 90) ∨ code c = 60

/-- The ASCII digit character for `n < 10`. -/
def digitChar (n : Nat) : Char := Char.ofNat (48 + n)

/-- C4 claim-side normalization: trim surrounding whitespace, upper-case,
remove embedded *whitespace* (the code removes only ASCII spaces). -/
def claimNormalize (s : Str) : Str :=
  (pyUpper (pyStrip s)).filter (fun c => isPySpace c = false)

/-- The all-defaults record the parser degrades to on short input. -/
def defaultParsed (line1 line2 : Str) : MRZParsed :=
  { raw_line1 := line1, raw_line2 := line2 }

/-- A 40-character line with two embedded tabs: 40 characters for the code's
normalization, 38 for the claim's. -/
def tabLine : Str := List.replicate 19 'A' ++ ['\t', '\t'] ++ List.replicate 19 'A'

/-- C6 claim-side severity weights (CRITICAL=3, HIGH=2, MEDIUM=1, LOW=0.5). -/
def claimWeight (s : String) : ℚ :=
  if s = "CRITICAL" then 3
  else if s = "HIGH" then 2
  else if s = "MEDIUM" then 1
  else if s = "LOW" then 1 / 2
  else 0

def claimTotalWeight (vs : List RuleViolation) : ℚ :=
  (vs.map (fun v => claimWeight v.severity)).sum

/-- C6 claim-side level thresholds: ≥0.7 CRITICAL, ≥0.4 HIGH, ≥0.2 MEDIUM. -/
def claimLevel (score : ℚ) : String :=
  if 7 / 10 ≤ score then "CRITICAL"
  else if 4 / 10 ≤ score then "HIGH"
  else if 2 / 10 ≤ score then "MEDIUM"
  else "LOW"

/-- The violations part of the engine loop. -/
def violationsOf (rules : List RuleSpec) (fields : Fields) (mrz : Option MRZParsed) :
    List RuleViolation :=
  (runRules rules fields mrz).1

def ruleIds (rs : List RuleSpec) : List String := rs.map (fun r => r.1)

-- ── Concrete scenario data (spec §8) ────────────────────────────────

def scenarioL1 : Str := "P<AZEKALKAN<<FIMAR<<<<<<<<<<<<<<<<<<<<<<<<<<".toList

def scenarioL2 : Str := "C092555921AZE5910058F261123929108E0<<<<<<<08".toList

/-- An evaluation date on which the scenario document is unexpired and the
holder's age is plausible. -/
def scenarioToday : PyDate := ⟨2026, 10, 12⟩

/-- The matching VIZ fields of the concrete scenario. -/
def kalkanFields : Fields :=
  [("mrz_upper_line", scenarioL1), ("mrz_lower_line", scenarioL2),
   ("document_number", "C09255592".toList), ("primary_identifier", "KALKAN".toList),
   ("sex", "F".toList), ("date_of_birth", "05.10.1959".toList)]

/-- Same scenario with `primary_identifier` overwritten to "SMITH". -/
def smithFields : Fields :=
  [("mrz_upper_line", scenarioL1), ("mrz_lower_line", scenarioL2),
   ("document_number", "C09255592".toList), ("primary_identifier", "SMITH".toList),
   ("sex", "F".toList), ("date_of_birth", "05.10.1959".toList)]

/-- A rule body that always raises (for instantiating the exception-isolation
theorem). -/
def boomRule : RuleFn := fun _ _ => Except.error "boom"

/-- The single violation the engine emits on the SMITH scenario. -/
def smithViolation : RuleViolation :=
  ⟨"CROSS_CHECK", "VIZ - MRZ Cross-Check", "HIGH",
   "Surname mismatch: VIZ=SMITH vs MRZ=KALKAN"⟩

-- ════════════════════════════ THEOREMS ═════════════════════════════

-- ── Generic helper lemmas ───────────────────────────────────────────

theorem mrzWeight_eq_specWeight (i : Nat) : mrzWeight i = specWeight i := by
  have h3 : i % 3 = 0 ∨ i % 3 = 1 ∨ i % 3 = 2 := by omega
  rcases h3 with h | h | h <;> simp [mrzWeight, specWeight, MRZ_WEIGHTS, h]

theorem MRZ_CHAR_VALUES_eq_specCharValue (c : Char) :
    MRZ_CHAR_VALUES c = specCharValue c := rfl

theorem mrzSumAux_eq_enumFrom (s : Str) : ∀ i, mrzSumAux i s =
    ((s.enumFrom i).map (fun ic => specCharValue (pyUpperChar ic.2) * specWeight ic.1)).sum := by
  induction s with
  | nil => intro i; simp [mrzSumAux]
  | cons c cs ih =>
    intro i
    simp [mrzSumAux, List.enumFrom_cons, ih, mrzWeight_eq_specWeight,
      MRZ_CHAR_VALUES_eq_specCharValue]

theorem isPySpace_eq_false_of_mrz {c : Char} (h : isMrzChar c = true) :
    isPySpace c = false := by
  simp only [isMrzChar, pyIsDigit, decide_eq_true_eq] at h
  simp only [isPySpace, decide_eq_false_iff_not]
  omega

theorem pyUpperChar_eq_self_of_mrz {c : Char} (h : isMrzChar c = true) :
    pyUpperChar c = c := by
  simp only [isMrzChar, pyIsDigit, decide_eq_true_eq] at h
  have hn : ¬ (97 ≤ code c ∧ code c ≤ 122) := by omega
  simp [pyUpperChar, hn]

theorem dropWhile_eq_self_of (p : Char → Bool) (l : Str) (h : ∀ c ∈ l, p c = false) :
    l.dropWhile p = l := by
  cases l with
  | nil => rfl
  | cons a t =>
    rw [List.dropWhile_cons, h a (List.mem_cons_self a t)]
    simp

theorem pyStrip_eq_self (l : Str) (h : ∀ c ∈ l, isPySpace c = false) : pyStrip l = l := by
  unfold pyStrip
  rw [dropWhile_eq_self_of _ _ h]
  rw [dropWhile_eq_self_of _ _ (fun c hc => h c (List.mem_reverse.mp hc))]
  exact List.reverse_reverse l

theorem pyUpper_eq_self (l : Str) (h : ∀ c ∈ l, isMrzChar c = true) : pyUpper l = l := by
  unfold pyUpper
  rw [List.map_congr_left (fun c hc => pyUpperChar_eq_self_of_mrz (h c hc))]
  exact List.map_id l

theorem removeSpaces_eq_self (l : Str) (h : ∀ c ∈ l, isMrzChar c = true) :
    removeSpaces l = l := by
  apply List.filter_eq_self.mpr
  intro c hc
  have h2 := h c hc
  simp only [isMrzChar, pyIsDigit, decide_eq_true_eq] at h2
  simp only [decide_eq_true_eq]
  omega

theorem normalizeLine_eq_self (l : Str) (h : ∀ c ∈ l, isMrzChar c = true) :
    normalizeLine l = l := by
  unfold normalizeLine
  rw [pyStrip_eq_self l (fun c hc => isPySpace_eq_false_of_mrz (h c hc)),
    pyUpper_eq_self l h, removeSpaces_eq_self l h]

theorem stripUpper_eq_self (l : Str) (h : ∀ c ∈ l, isMrzChar c = true) :
    pyUpper (pyStrip l) = l := by
  rw [pyStrip_eq_self l (fun c hc => isPySpace_eq_false_of_mrz (h c hc)), pyUpper_eq_self l h]

-- ── C1 ──────────────────────────────────────────────────────────────

/-- C1 counterexample: on the string "b" the calculator returns 7 (the code
upper-cases before the value lookup, so `b` has value 11), while the claim's
mapping ("any other character maps to 0") demands 0. -/
theorem C1_cex : mrz_check_digit ['b'] = 7 ∧ specCheckDigit ['b'] = 0 ∧
    mrz_check_digit ['b'] ≠ specCheckDigit ['b'] := by decide

/-- C1 (amended): for every input string the check-digit calculator returns
the weighted sum mod 10 of the character values, each character being
upper-cased before the mapping (digits to themselves, `A`=10..`Z`=35, `<`=0,
anything else 0), with weights 7,3,1 cycling by position; the result is a
single integer in 0..9, and the empty string yields 0. -/
theorem C1_check_digit_spec (s : Str) :
    mrz_check_digit s = specCheckDigitUpper s ∧ mrz_check_digit s < 10 ∧
    mrz_check_digit [] = 0 := by
  refine ⟨?_, Nat.mod_lt _ (by norm_num), rfl⟩
  unfold mrz_check_digit specCheckDigitUpper
  rw [mrzSumAux_eq_enumFrom]
  rfl

-- ── C4 ──────────────────────────────────────────────────────────────

/-- C4 counterexample: a line with two embedded tabs has 38 characters after
the claim's normalization (which removes embedded whitespace) but 40 after the
code's (`replace(" ", "")` removes only spaces), so the parser marks the pair
valid-format even though the claim demands `is_valid_format = false`. -/
theorem C4_cex : (claimNormalize tabLine).length = 38 ∧
    (parse_mrz_td3 tabLine tabLine).is_valid_format = true := by decide

/-- C4 (amended): the parser is total and never fails; the returned record
carries the raw lines unchanged; `is_valid_format` is true exactly when both
lines have at least 40 characters after the code's normalization (trim, then
upper-case, then remove embedded ASCII spaces — embedded tabs and other
whitespace are kept and counted); when either normalized line is shorter than
40, every other field keeps its default (empty strings, check digits -1). -/
theorem C4_parse_graceful (line1 line2 : Str) :
    (parse_mrz_td3 line1 line2).raw_line1 = line1 ∧
    (parse_mrz_td3 line1 line2).raw_line2 = line2 ∧
    ((parse_mrz_td3 line1 line2).is_valid_format = true ↔
      40 ≤ (normalizeLine line1).length ∧ 40 ≤ (normalizeLine line2).length) ∧
    ((normalizeLine line1).length < 40 ∨ (normalizeLine line2).length < 40 →
      parse_mrz_td3 line1 line2 = defaultParsed line1 line2) := by
  by_cases hc : (normalizeLine line1).length < 40 ∨ (normalizeLine line2).length < 40
  · unfold parse_mrz_td3
    rw [if_pos hc]
    refine ⟨rfl, rfl, ?_, fun _ => rfl⟩
    constructor
    · intro h; exact absurd h (by simp)
    · intro h; omega
  · unfold parse_mrz_td3
    rw [if_neg hc]
    refine ⟨rfl, rfl, ?_, fun h => absurd h hc⟩
    constructor
    · intro _; omega
    · intro _; rfl

/-- C4 witness: the empty pair parses to the all-defaults record with
`is_valid_format = false`. -/
theorem C4_parse_graceful_witness :
    parse_mrz_td3 [] [] = defaultParsed [] [] ∧
    (parse_mrz_td3 [] []).is_valid_format = false := by
  have h := (C4_parse_graceful [] []).2.2.2 (Or.inl (by decide))
  exact ⟨h, by rw [h]; rfl⟩

-- ── C5 ──────────────────────────────────────────────────────────────

/-- C5: when the MRZ record is absent or has `is_valid_format = false`, each
of the eight rules other than MRZ_FORMAT and REQUIRED_FIELDS returns the empty
violation list (a no-op, not an error). -/
theorem C5_rules_noop (fields : Fields) (mrz : Option MRZParsed) (today : PyDate)
    (h : mrz = none ∨ ∃ m, mrz = some m ∧ m.is_valid_format = false) :
    rule_doc_number_check fields mrz = [] ∧
    rule_dob_check fields mrz = [] ∧
    rule_doe_check fields mrz = [] ∧
    rule_personal_number_check fields mrz = [] ∧
    rule_composite_check fields mrz = [] ∧
    rule_country_code fields mrz = [] ∧
    rule_date_plausibility today fields mrz = [] ∧
    rule_cross_check fields mrz = [] := by
  rcases h with rfl | ⟨m, rfl, hm⟩
  · exact ⟨rfl, rfl, rfl, rfl, rfl, rfl, rfl, rfl⟩
  · refine ⟨?_, ?_, ?_, ?_, ?_, ?_, ?_, ?_⟩ <;>
      simp [rule_doc_number_check, rule_dob_check, rule_doe_check,
        rule_personal_number_check, rule_composite_check, rule_country_code,
        rule_date_plausibility, rule_cross_check, hm]

/-- C5 witness: instantiated on the default (invalid-format) record. -/
theorem C5_rules_noop_witness :
    rule_doc_number_check [] (some {}) = [] ∧
    rule_dob_check [] (some {}) = [] ∧
    rule_doe_check [] (some {}) = [] ∧
    rule_personal_number_check [] (some {}) = [] ∧
    rule_composite_check [] (some {}) = [] ∧
    rule_country_code [] (some {}) = [] ∧
    rule_date_plausibility ⟨2026, 1, 1⟩ [] (some {}) = [] ∧
    rule_cross_check [] (some {}) = [] :=
  C5_rules_noop [] (some {}) ⟨2026, 1, 1⟩ (Or.inr ⟨{}, rfl, rfl⟩)

-- ── C10 ─────────────────────────────────────────────────────────────

/-- C10: in CROSS_CHECK, when the record is valid-format and its MRZ birth
date parses but the VIZ birth-date string has fewer than three numeric groups,
or the extracted day/month/year do not form a valid calendar date, no
birth-date violation is emitted: the rule output is exactly the document,
surname and sex parts. -/
theorem C10_viz_dob_skipped (fields : Fields) (m : MRZParsed) (d : PyDate)
    (hv : m.is_valid_format = true)
    (hp : parse_mrz_date m.date_of_birth = some d)
    (hbad : (digitGroups (pyStrip (fget fields "date_of_birth"))).length < 3 ∨
            vizDobDate (digitGroups (pyStrip (fget fields "date_of_birth"))) = none) :
    crossCheckDob fields m = [] ∧
    rule_cross_check fields (some m) =
      crossCheckDoc fields m ++ crossCheckName fields m ++ crossCheckSex fields m := by
  have hdob : crossCheckDob fields m = [] := by
    simp only [crossCheckDob]
    by_cases hg : (pyStrip (fget fields "date_of_birth")).isEmpty = false ∧
        String.mk (pyStrip (fget fields "date_of_birth")) ≠ "[BBOX_PRESENT]" ∧
        m.date_of_birth.isEmpty = false
    · rw [if_pos hg, hp]
      rcases hbad with hb | hb
      · simp [hb]
      · by_cases hl : (digitGroups (pyStrip (fget fields "date_of_birth"))).length < 3
        · simp [hl]
        · simp [hl, hb]
    · rw [if_neg hg]
  refine ⟨hdob, ?_⟩
  simp [rule_cross_check, hv, hdob]

/-- C10 witness: VIZ birth date "05.10" has only two numeric groups; the
cross-check on the scenario record emits no birth-date violation. -/
theorem C10_viz_dob_skipped_witness :
    crossCheckDob [("date_of_birth", ['0', '5', '.', '1', '0'])]
      (parse_mrz_td3 scenarioL1 scenarioL2) = [] ∧
    rule_cross_check [("date_of_birth", ['0', '5', '.', '1', '0'])]
      (some (parse_mrz_td3 scenarioL1 scenarioL2)) =
      crossCheckDoc [("date_of_birth", ['0', '5', '.', '1', '0'])]
        (parse_mrz_td3 scenarioL1 scenarioL2) ++
      crossCheckName [("date_of_birth", ['0', '5', '.', '1', '0'])]
        (parse_mrz_td3 scenarioL1 scenarioL2) ++
      crossCheckSex [("date_of_birth", ['0', '5', '.', '1', '0'])]
        (parse_mrz_td3 scenarioL1 scenarioL2) :=
  C10_viz_dob_skipped _ _ ⟨1959, 10, 5⟩ (by decide) (by decide) (Or.inl (by decide))

-- ── Risk aggregator helper lemmas ───────────────────────────────────

theorem claimTotalWeight_eq (vs : List RuleViolation) :
    claimTotalWeight vs = totalWeight vs := rfl

theorem claimLevel_eq (q : ℚ) : claimLevel q = riskLevelOf q := rfl

theorem sevWeight_nonneg (s : String) : 0 ≤ sevWeight s := by
  unfold sevWeight
  split_ifs <;> norm_num

theorem totalWeight_nonneg (vs : List RuleViolation) : 0 ≤ totalWeight vs := by
  apply List.sum_nonneg
  intro x hx
  obtain ⟨v, _, rfl⟩ := List.mem_map.mp hx
  exact sevWeight_nonneg v.severity

theorem roundHalfEvenInt_mem {q : ℚ} :
    ⌊q⌋ ≤ roundHalfEvenInt q ∧ roundHalfEvenInt q ≤ ⌊q⌋ + 1 := by
  simp only [roundHalfEvenInt]
  split_ifs <;> omega

theorem round3_bounds {q : ℚ} (h0 : 0 ≤ q) (h1 : q ≤ 1) :
    0 ≤ round3 q ∧ round3 q ≤ 1 := by
  have hq0 : (0 : ℚ) ≤ q * 1000 := by positivity
  have hq1 : q * 1000 ≤ 1000 := by nlinarith
  have hf0 : (0 : ℤ) ≤ ⌊q * 1000⌋ := Int.floor_nonneg.mpr hq0
  have hmem := @roundHalfEvenInt_mem (q * 1000)
  have hup : roundHalfEvenInt (q * 1000) ≤ 1000 := by
    by_cases hc : ⌊q * 1000⌋ = 1000
    · have hexact : q * 1000 = 1000 := by
        have hle : (1000 : ℚ) ≤ q * 1000 := by
          have := Int.floor_le (q * 1000)
          rw [hc] at this
          exact_mod_cast this
        linarith
      simp only [roundHalfEvenInt]
      rw [hexact]
      norm_num
    · have hle : ⌊q * 1000⌋ ≤ 1000 := by
        have hm := Int.floor_mono hq1
        have he : ⌊(1000 : ℚ)⌋ = 1000 := by
          rw [Int.floor_eq_iff]; norm_num
        rwa [he] at hm
      omega
  constructor
  · unfold round3
    have : (0 : ℚ) ≤ (roundHalfEvenInt (q * 1000) : ℚ) := by
      exact_mod_cast le_trans hf0 hmem.1
    positivity
  · unfold round3
    rw [div_le_one (by norm_num)]
    exact_mod_cast hup

theorem score_bounds (vs : List RuleViolation) :
    0 ≤ round3 (min 1 (totalWeight vs / 15)) ∧ round3 (min 1 (totalWeight vs / 15)) ≤ 1 := by
  have hW := totalWeight_nonneg vs
  have h0 : 0 ≤ min 1 (totalWeight vs / 15) :=
    le_min zero_le_one (div_nonneg hW (by norm_num))
  have h1 : min 1 (totalWeight vs / 15) ≤ 1 := min_le_left _ _
  exact round3_bounds h0 h1

/-- `risk_score` as returned by `apply`, in terms of the returned violations. -/
theorem apply_risk_score_eq (today : PyDate) (fields : Fields) :
    (apply today fields).risk_score =
      round3 (min 1 (totalWeight (apply today fields).violations / 15)) := rfl

/-- `risk_level` as returned by `apply`, in terms of the returned violations. -/
theorem apply_risk_level_eq (today : PyDate) (fields : Fields) :
    (apply today fields).risk_level =
      riskLevelOf (min 1 (totalWeight (apply today fields).violations / 15)) := rfl

/-- Evaluation of the engine on the SMITH scenario: exactly one violation,
the HIGH surname mismatch of CROSS_CHECK. -/
theorem smith_violations_eq :
    (apply scenarioToday smithFields).violations = [smithViolation] := by decide

theorem totalWeight_smith : totalWeight [smithViolation] = 2 := by
  simp [totalWeight, sevWeight, smithViolation]

theorem min_one_two_fifteenths : min 1 ((2 : ℚ) / 15) = 2 / 15 := by norm_num

theorem round3_two_fifteenths : round3 (2 / 15) = 133 / 1000 := by
  have hf : ⌊((2 : ℚ) / 15) * 1000⌋ = 133 := by
    rw [Int.floor_eq_iff]; norm_num
  rw [round3, roundHalfEvenInt, hf]
  norm_num

theorem riskLevelOf_two_fifteenths : riskLevelOf (2 / 15) = "LOW" := by
  rw [riskLevelOf, if_neg (by norm_num), if_neg (by norm_num), if_neg (by norm_num)]

-- ── C6 ──────────────────────────────────────────────────────────────

/-- C6 counterexample: on the SMITH scenario the single HIGH violation gives
weight 2 and `min(1, 2/15) = 2/15`, but the engine returns the score rounded
to three decimals, `0.133 ≠ 2/15`. -/
theorem C6_cex : (apply scenarioToday smithFields).risk_score ≠
    min 1 (claimTotalWeight (apply scenarioToday smithFields).violations / 15) := by
  rw [apply_risk_score_eq, claimTotalWeight_eq, smith_violations_eq, totalWeight_smith,
    min_one_two_fifteenths, round3_two_fifteenths]
  norm_num

/-- C6 (amended): the returned risk score is `min(1, W/15)` rounded
half-to-even to three decimal places, where W sums the weights
CRITICAL=3, HIGH=2, MEDIUM=1, LOW=0.5 over all returned violations; the score
lies in [0, 1]; and the risk level is computed from the *unrounded*
`min(1, W/15)` by the thresholds ≥0.7 CRITICAL, ≥0.4 HIGH, ≥0.2 MEDIUM,
else LOW. -/
theorem C6_risk_spec (today : PyDate) (fields : Fields) :
    (apply today fields).risk_score =
      round3 (min 1 (claimTotalWeight (apply today fields).violations / 15)) ∧
    0 ≤ (apply today fields).risk_score ∧ (apply today fields).risk_score ≤ 1 ∧
    (apply today fields).risk_level =
      claimLevel (min 1 (claimTotalWeight (apply today fields).violations / 15)) := by
  have hb := score_bounds (apply today fields).violations
  refine ⟨?_, ?_, ?_, ?_⟩
  · rw [apply_risk_score_eq, claimTotalWeight_eq]
  · rw [apply_risk_score_eq]
    exact hb.1
  · rw [apply_risk_score_eq]
    exact hb.2
  · rw [apply_risk_level_eq, claimTotalWeight_eq, claimLevel_eq]

-- ── C7 ──────────────────────────────────────────────────────────────

/-- C7 counterexample: on the SMITH scenario the engine does emit the
CROSS_CHECK violation (HIGH), but the risk score is 2/15 ≈ 0.133 < 0.2, so the
returned risk level is "LOW", not MEDIUM or above as the claim demands. -/
theorem C7_cex :
    ((apply scenarioToday smithFields).violations.map fun v => (v.rule_id, v.severity)) =
      [("CROSS_CHECK", "HIGH")] ∧
    (apply scenarioToday smithFields).risk_level = "LOW" := by
  constructor
  · rw [smith_violations_eq]
    rfl
  · rw [apply_risk_level_eq, smith_violations_eq, totalWeight_smith,
      min_one_two_fifteenths, riskLevelOf_two_fifteenths]

/-- C7 (amended): on the concrete MRZ pair with VIZ `primary_identifier`
overwritten to "SMITH" (evaluated on 2026-10-12, a date on which the document
is unexpired), the rules yield exactly one violation — CROSS_CHECK, HIGH,
the surname mismatch — the risk score is elevated to 0.133, and the risk
level remains "LOW" (2/15 is below the 0.2 MEDIUM threshold). -/
theorem C7_smith_scenario :
    ((apply scenarioToday smithFields).violations.map fun v => (v.rule_id, v.severity)) =
      [("CROSS_CHECK", "HIGH")] ∧
    (apply scenarioToday smithFields).risk_score = 133 / 1000 ∧
    (apply scenarioToday smithFields).risk_level = "LOW" := by
  refine ⟨by rw [smith_violations_eq]; rfl, ?_, ?_⟩
  · rw [apply_risk_score_eq, smith_violations_eq, totalWeight_smith,
      min_one_two_fifteenths, round3_two_fifteenths]
  · rw [apply_risk_level_eq, smith_violations_eq, totalWeight_smith,
      min_one_two_fifteenths, riskLevelOf_two_fifteenths]

-- ── Checksum flip lemmas (for C2, C3) ───────────────────────────────

theorem char_eq_of_code_eq {a b : Char} (h : code a = code b) : a = b := by
  apply Char.ext
  apply UInt32.ext
  exact h

theorem pyUpperChar_of_digit {c : Char} (h : pyIsDigit c = true) : pyUpperChar c = c := by
  simp only [pyIsDigit, decide_eq_true_eq] at h
  unfold pyUpperChar
  rw [if_neg (by omega)]

theorem value_of_digit {c : Char} (h : pyIsDigit c = true) :
    MRZ_CHAR_VALUES (pyUpperChar c) = code c - 48 := by
  rw [pyUpperChar_of_digit h]
  simp [MRZ_CHAR_VALUES, h]

theorem value_digit_lt {c : Char} (h : pyIsDigit c = true) :
    MRZ_CHAR_VALUES (pyUpperChar c) < 10 := by
  rw [value_of_digit h]
  simp only [pyIsDigit, decide_eq_true_eq] at h
  omega

theorem value_digit_ne {a b : Char} (hda : pyIsDigit a = true) (hdb : pyIsDigit b = true)
    (hne : a ≠ b) : MRZ_CHAR_VALUES (pyUpperChar a) ≠ MRZ_CHAR_VALUES (pyUpperChar b) := by
  rw [value_of_digit hda, value_of_digit hdb]
  intro h
  apply hne
  apply char_eq_of_code_eq
  simp only [pyIsDigit, decide_eq_true_eq] at hda hdb
  omega

theorem isMrzChar_of_digit {c : Char} (h : pyIsDigit c = true) : isMrzChar c = true := by
  simp only [pyIsDigit, decide_eq_true_eq] at h
  simp only [isMrzChar, pyIsDigit, decide_eq_true_eq]
  omega

theorem mrzAlphabet_set {l : Str} {p : Nat} {c' : Char}
    (ha : ∀ c ∈ l, isMrzChar c = true) (hc' : isMrzChar c' = true) :
    ∀ c ∈ l.set p c', isMrzChar c = true := by
  intro c hc
  rcases List.mem_or_eq_of_mem_set hc with h | rfl
  · exact ha c h
  · exact hc'

theorem mrzSumAux_set (c' : Char) : ∀ (s : Str) (i p : Nat), p < s.length →
    mrzSumAux i (s.set p c') + MRZ_CHAR_VALUES (pyUpperChar (s.getD p ' ')) * mrzWeight (i + p) =
      mrzSumAux i s + MRZ_CHAR_VALUES (pyUpperChar c') * mrzWeight (i + p) := by
  intro s
  induction s with
  | nil => intro i p h; simp at h
  | cons a t ih =>
    intro i p h
    cases p with
    | zero =>
      simp only [List.set_cons_zero, List.getD_cons_zero, Nat.add_zero, mrzSumAux]
      ring
    | succ q =>
      have hq : q < t.length := by simpa using h
      have hrec := ih (i + 1) q hq
      simp only [List.set_cons_succ, List.getD_cons_succ, mrzSumAux]
      have hidx : i + 1 + q = i + (q + 1) := by omega
      rw [hidx] at hrec
      rw [Nat.add_assoc, Nat.add_assoc, hrec]

theorem sum_mod_ne {S S' w v v' : Nat} (hsum : S' + v * w = S + v' * w)
    (hw : w = 7 ∨ w = 3 ∨ w = 1) (hv : v < 10) (hv' : v' < 10) (hne : v' ≠ v) :
    S' % 10 ≠ S % 10 := by
  intro heq
  have h1 : S' ≡ S [MOD 10] := heq
  have h2 := h1.add_right (v * w)
  rw [hsum] at h2
  have h3 : v' * w ≡ v * w [MOD 10] := Nat.ModEq.add_left_cancel' S h2
  have h3' : w * v' ≡ w * v [MOD 10] := by
    rwa [Nat.mul_comm v' w, Nat.mul_comm v w] at h3
  have hcop : Nat.gcd 10 w = 1 := by rcases hw with rfl | rfl | rfl <;> decide
  have h4 := Nat.ModEq.cancel_left_of_coprime hcop h3'
  have h5 : v' % 10 = v % 10 := h4
  rw [Nat.mod_eq_of_lt hv', Nat.mod_eq_of_lt hv] at h5
  exact hne h5

/-- Setting a digit position of `s` to a different digit always changes the
ICAO check digit: the weights 7, 3, 1 are all coprime to 10. -/
theorem mrz_check_digit_set_ne (s : Str) (p : Nat) (c' : Char)
    (hp : p < s.length) (hd : pyIsDigit (s.getD p ' ') = true)
    (hc' : pyIsDigit c' = true) (hne : c' ≠ s.getD p ' ') :
    mrz_check_digit (s.set p c') ≠ mrz_check_digit s := by
  have hsum := mrzSumAux_set c' s 0 p hp
  rw [Nat.zero_add] at hsum
  have hw : mrzWeight p = 7 ∨ mrzWeight p = 3 ∨ mrzWeight p = 1 := by
    have h3 : p % 3 = 0 ∨ p % 3 = 1 ∨ p % 3 = 2 := by omega
    rcases h3 with h | h | h <;> simp [mrzWeight, MRZ_WEIGHTS, h]
  unfold mrz_check_digit
  exact sum_mod_ne hsum hw (value_digit_lt hd) (value_digit_lt hc')
    (value_digit_ne hc' hd hne)

theorem sub_set (l : Str) (a b m : Nat) (c' : Char) :
    sub (l.set (a + m) c') a b = (sub l a b).set m c' := by
  unfold sub
  rw [← List.set_drop, List.set_take]

theorem sub_getD (l : Str) (a b m : Nat) (h : m < b - a) (d : Char) :
    (sub l a b).getD m d = l.getD (a + m) d := by
  unfold sub
  rw [List.getD_eq_getElem?_getD, List.getD_eq_getElem?_getD,
    List.getElem?_take_of_lt h, List.getElem?_drop]

theorem checkIntAt_set_ne {l : Str} {p i : Nat} {c' : Char} (h : p ≠ i) :
    checkIntAt (l.set p c') i = checkIntAt l i := by
  unfold checkIntAt
  rw [List.getElem?_set_ne h]

/-- Flipping a digit inside the columns `[a, b)` of a 44-character line
changes the check digit computed over those columns. -/
theorem flip_breaks_check (l2 : Str) (p a b : Nat) (c' : Char)
    (hlen2 : l2.length = 44) (hb : b ≤ 44) (hab : a ≤ p) (hpb : p < b)
    (hd : pyIsDigit (l2.getD p ' ') = true) (hc' : pyIsDigit c' = true)
    (hne : c' ≠ l2.getD p ' ') :
    mrz_check_digit (sub (l2.set p c') a b) ≠ mrz_check_digit (sub l2 a b) := by
  obtain ⟨m, rfl⟩ : ∃ m, p = a + m := ⟨p - a, by omega⟩
  rw [sub_set l2 a b m c']
  apply mrz_check_digit_set_ne
  · simp only [sub, List.length_take, List.length_drop]
    omega
  · rw [sub_getD l2 a b m (by omega) ' ']
    exact hd
  · exact hc'
  · rw [sub_getD l2 a b m (by omega) ' ']
    exact hne

-- ── Parser projections on TD3-alphabet lines ────────────────────────

theorem parse_td3_eq {l1 l2 : Str}
    (ha1 : ∀ c ∈ l1, isMrzChar c = true) (ha2 : ∀ c ∈ l2, isMrzChar c = true)
    (h1 : 40 ≤ l1.length) (h2 : 40 ≤ l2.length) :
    parse_mrz_td3 l1 l2 = parseFields l1 l2 l1 l2 := by
  unfold parse_mrz_td3
  rw [normalizeLine_eq_self l1 ha1, normalizeLine_eq_self l2 ha2, if_neg (by omega)]

theorem parseFields_valid (a b c d : Str) : (parseFields a b c d).is_valid_format = true := rfl

theorem parseFields_raw2 (a b c d : Str) : (parseFields a b c d).raw_line2 = d := by
  simp [parseFields]

theorem parseFields_doc_check (a b c d : Str) :
    (parseFields a b c d).document_number_check = checkIntAt b 9 := rfl

theorem parseFields_dob_check (a b c d : Str) :
    (parseFields a b c d).dob_check = checkIntAt b 19 := rfl

theorem parseFields_doe_check (a b c d : Str) :
    (parseFields a b c d).doe_check = checkIntAt b 27 := rfl

-- ── Checksum rules: pass-iff-equal characterizations ────────────────

theorem rule_doc_nil_iff (fields : Fields) (m : MRZParsed) (L : Str)
    (hv : m.is_valid_format = true) (hL : pyUpper (pyStrip m.raw_line2) = L)
    (hlen : ¬ L.length < 10) :
    rule_doc_number_check fields (some m) = [] ↔
      m.document_number_check = (mrz_check_digit (sub L 0 9) : Int) := by
  simp [rule_doc_number_check, hv, hL, hlen]

theorem rule_dob_nil_iff (fields : Fields) (m : MRZParsed) (L : Str)
    (hv : m.is_valid_format = true) (hL : pyUpper (pyStrip m.raw_line2) = L)
    (hlen : ¬ L.length < 20) :
    rule_dob_check fields (some m) = [] ↔
      m.dob_check = (mrz_check_digit (sub L 13 19) : Int) := by
  simp [rule_dob_check, hv, hL, hlen]

theorem rule_doe_nil_iff (fields : Fields) (m : MRZParsed) (L : Str)
    (hv : m.is_valid_format = true) (hL : pyUpper (pyStrip m.raw_line2) = L)
    (hlen : ¬ L.length < 28) :
    rule_doe_check fields (some m) = [] ↔
      m.doe_check = (mrz_check_digit (sub L 21 27) : Int) := by
  simp [rule_doe_check, hv, hL, hlen]

theorem mrz_check_digit_lt (s : Str) : mrz_check_digit s < 10 :=
  Nat.mod_lt _ (by norm_num)

theorem digitChar_isDigit {n : Nat} (h : n < 10) : pyIsDigit (digitChar n) = true := by
  interval_cases n <;> decide

theorem digitChar_code {n : Nat} (h : n < 10) : code (digitChar n) = 48 + n := by
  interval_cases n <;> decide

theorem checkIntAt_of_digitChar {l : Str} {i n : Nat} (h : n < 10)
    (hl : l[i]? = some (digitChar n)) : checkIntAt l i = (n : Int) := by
  unfold checkIntAt
  rw [hl]
  simp [digitChar_isDigit h, digitChar_code h]

theorem rule_pn_nil_of (fields : Fields) (m : MRZParsed) (L : Str)
    (hv : m.is_valid_format = true) (hL : pyUpper (pyStrip m.raw_line2) = L)
    (hlen : ¬ L.length < 43)
    (h : m.personal_number_check = (mrz_check_digit (sub L 28 42) : Int)) :
    rule_personal_number_check fields (some m) = [] := by
  simp [rule_personal_number_check, hv, hL, hlen, h]

theorem rule_comp_nil_of (fields : Fields) (m : MRZParsed) (L : Str)
    (hv : m.is_valid_format = true) (hL : pyUpper (pyStrip m.raw_line2) = L)
    (hlen : ¬ L.length < 44)
    (h : m.composite_check =
      (mrz_check_digit (sub L 0 10 ++ sub L 13 20 ++ sub L 21 43) : Int)) :
    rule_composite_check fields (some m) = [] := by
  simp [rule_composite_check, hv, hL, hlen, h]

theorem parseFields_pn_check (a b c d : Str) (h : 42 < b.length) :
    (parseFields a b c d).personal_number_check = checkIntAt b 42 := by
  simp [parseFields, h]

theorem parseFields_comp_check (a b c d : Str) (h : 43 < b.length) :
    (parseFields a b c d).composite_check = checkIntAt b 43 := by
  simp [parseFields, h]

-- ── C3 ──────────────────────────────────────────────────────────────

/-- C3: for every syntactically valid TD3 MRZ pair (two 44-character lines
over the MRZ alphabet, line 1 starting with P) whose five check-digit
positions (9, 19, 27, 42, 43 of line 2) hold exactly the digits computed by
the calculator over the corresponding column ranges, the six checksum/format
rules produce no violations at all — in particular zero CRITICAL or HIGH
ones. -/
theorem C3_roundtrip (fields : Fields) (l1 l2 : Str)
    (hf1 : fget fields "mrz_upper_line" = l1) (hf2 : fget fields "mrz_lower_line" = l2)
    (hlen1 : l1.length = 44) (hlen2 : l2.length = 44)
    (ha1 : ∀ c ∈ l1, isMrzChar c = true) (ha2 : ∀ c ∈ l2, isMrzChar c = true)
    (hP : l1[0]? = some 'P')
    (h9 : l2[9]? = some (digitChar (mrz_check_digit (sub l2 0 9))))
    (h19 : l2[19]? = some (digitChar (mrz_check_digit (sub l2 13 19))))
    (h27 : l2[27]? = some (digitChar (mrz_check_digit (sub l2 21 27))))
    (h42 : l2[42]? = some (digitChar (mrz_check_digit (sub l2 28 42))))
    (h43 : l2[43]? = some (digitChar
      (mrz_check_digit (sub l2 0 10 ++ sub l2 13 20 ++ sub l2 21 43)))) :
    rule_mrz_format fields (some (parse_mrz_td3 l1 l2)) = [] ∧
    rule_doc_number_check fields (some (parse_mrz_td3 l1 l2)) = [] ∧
    rule_dob_check fields (some (parse_mrz_td3 l1 l2)) = [] ∧
    rule_doe_check fields (some (parse_mrz_td3 l1 l2)) = [] ∧
    rule_personal_number_check fields (some (parse_mrz_td3 l1 l2)) = [] ∧
    rule_composite_check fields (some (parse_mrz_td3 l1 l2)) = [] := by
  have hup1 : pyUpper (pyStrip l1) = l1 := stripUpper_eq_self l1 ha1
  have hup2 : pyUpper (pyStrip l2) = l2 := stripUpper_eq_self l2 ha2
  have hstrip1 : pyStrip l1 = l1 :=
    pyStrip_eq_self l1 (fun c hc => isPySpace_eq_false_of_mrz (ha1 c hc))
  have hstrip2 : pyStrip l2 = l2 :=
    pyStrip_eq_self l2 (fun c hc => isPySpace_eq_false_of_mrz (ha2 c hc))
  have hupp1 : pyUpper l1 = l1 := pyUpper_eq_self l1 ha1
  have hm := parse_td3_eq ha1 ha2 (by omega) (by omega)
  have hne1 : l1.isEmpty = false := by
    cases l1 with
    | nil => exact absurd hlen1 (by simp)
    | cons a t => rfl
  have hne2 : l2.isEmpty = false := by
    cases l2 with
    | nil => exact absurd hlen2 (by simp)
    | cons a t => rfl
  have hsw : startsWithP l1 = true := by
    cases l1 with
    | nil => exact absurd hlen1 (by simp)
    | cons a t =>
      rw [List.getElem?_cons_zero, Option.some.injEq] at hP
      subst hP
      rfl
  have hv := parseFields_valid l1 l2 l1 l2
  have hL : pyUpper (pyStrip (parseFields l1 l2 l1 l2).raw_line2) = l2 := by
    rw [parseFields_raw2]
    exact hup2
  rw [hm]
  refine ⟨?_, ?_, ?_, ?_, ?_, ?_⟩
  · simp [rule_mrz_format, hf1, hf2, hne1, hne2, hstrip1, hstrip2, hlen1, hlen2, hupp1, hsw]
  · refine (rule_doc_nil_iff fields _ l2 hv hL (by omega)).mpr ?_
    rw [parseFields_doc_check]
    exact checkIntAt_of_digitChar (mrz_check_digit_lt _) h9
  · refine (rule_dob_nil_iff fields _ l2 hv hL (by omega)).mpr ?_
    rw [parseFields_dob_check]
    exact checkIntAt_of_digitChar (mrz_check_digit_lt _) h19
  · refine (rule_doe_nil_iff fields _ l2 hv hL (by omega)).mpr ?_
    rw [parseFields_doe_check]
    exact checkIntAt_of_digitChar (mrz_check_digit_lt _) h27
  · refine rule_pn_nil_of fields _ l2 hv hL (by omega) ?_
    rw [parseFields_pn_check _ _ _ _ (by omega)]
    exact checkIntAt_of_digitChar (mrz_check_digit_lt _) h42
  · refine rule_comp_nil_of fields _ l2 hv hL (by omega) ?_
    rw [parseFields_comp_check _ _ _ _ (by omega)]
    exact checkIntAt_of_digitChar (mrz_check_digit_lt _) h43

/-- C3 witness: the concrete scenario pair satisfies all hypotheses and all
six rules return no violation. -/
theorem C3_roundtrip_witness :
    rule_mrz_format kalkanFields (some (parse_mrz_td3 scenarioL1 scenarioL2)) = [] ∧
    rule_doc_number_check kalkanFields (some (parse_mrz_td3 scenarioL1 scenarioL2)) = [] ∧
    rule_dob_check kalkanFields (some (parse_mrz_td3 scenarioL1 scenarioL2)) = [] ∧
    rule_doe_check kalkanFields (some (parse_mrz_td3 scenarioL1 scenarioL2)) = [] ∧
    rule_personal_number_check kalkanFields (some (parse_mrz_td3 scenarioL1 scenarioL2)) = [] ∧
    rule_composite_check kalkanFields (some (parse_mrz_td3 scenarioL1 scenarioL2)) = [] :=
  C3_roundtrip kalkanFields scenarioL1 scenarioL2 (by decide) (by decide) (by decide)
    (by decide) (by decide) (by decide) (by decide) (by decide) (by decide) (by decide)
    (by decide) (by decide)

-- ── C2 ──────────────────────────────────────────────────────────────

/-- C2: for every TD3 MRZ pair (44-character lines over the MRZ alphabet) on
which DOC_NUM_CHECK, DOB_CHECK and DOE_CHECK produce no violation, replacing
a single digit of line 2 by a different digit inside the document-number
columns [0,9), the birth-date columns [13,19) or the expiry-date columns
[21,27) (check-digit columns 9/19/27 untouched) always makes the
corresponding checksum rule produce a violation. -/
theorem C2_tamper (fields : Fields) (l1 l2 : Str) (p : Nat) (c' : Char)
    (hlen1 : l1.length = 44) (hlen2 : l2.length = 44)
    (ha1 : ∀ c ∈ l1, isMrzChar c = true) (ha2 : ∀ c ∈ l2, isMrzChar c = true)
    (hdoc : rule_doc_number_check fields (some (parse_mrz_td3 l1 l2)) = [])
    (hdob : rule_dob_check fields (some (parse_mrz_td3 l1 l2)) = [])
    (hdoe : rule_doe_check fields (some (parse_mrz_td3 l1 l2)) = [])
    (hd : pyIsDigit (l2.getD p ' ') = true) (hc' : pyIsDigit c' = true)
    (hne : c' ≠ l2.getD p ' ') :
    (p < 9 →
      rule_doc_number_check fields (some (parse_mrz_td3 l1 (l2.set p c'))) ≠ []) ∧
    (13 ≤ p ∧ p < 19 →
      rule_dob_check fields (some (parse_mrz_td3 l1 (l2.set p c'))) ≠ []) ∧
    (21 ≤ p ∧ p < 27 →
      rule_doe_check fields (some (parse_mrz_td3 l1 (l2.set p c'))) ≠ []) := by
  have hup2 : pyUpper (pyStrip l2) = l2 := stripUpper_eq_self l2 ha2
  have ha2' : ∀ c ∈ l2.set p c', isMrzChar c = true :=
    mrzAlphabet_set ha2 (isMrzChar_of_digit hc')
  have hlen2' : (l2.set p c').length = 44 := by simp [hlen2]
  have hup2' : pyUpper (pyStrip (l2.set p c')) = l2.set p c' :=
    stripUpper_eq_self _ ha2'
  have hm := parse_td3_eq ha1 ha2 (by omega) (by omega)
  have hm' := parse_td3_eq ha1 ha2' (by omega) (by omega)
  rw [hm] at hdoc hdob hdoe
  have hv := parseFields_valid l1 l2 l1 l2
  have hv' := parseFields_valid l1 (l2.set p c') l1 (l2.set p c')
  have hL : pyUpper (pyStrip (parseFields l1 l2 l1 l2).raw_line2) = l2 := by
    rw [parseFields_raw2]
    exact hup2
  have hL' : pyUpper (pyStrip (parseFields l1 (l2.set p c') l1 (l2.set p c')).raw_line2) =
      l2.set p c' := by
    rw [parseFields_raw2]
    exact hup2'
  refine ⟨?_, ?_, ?_⟩
  · intro hp
    have h1 := (rule_doc_nil_iff fields _ l2 hv hL (by omega)).mp hdoc
    rw [parseFields_doc_check] at h1
    rw [hm', Ne, rule_doc_nil_iff fields _ (l2.set p c') hv' hL' (by omega)]
    rw [parseFields_doc_check, checkIntAt_set_ne (show p ≠ 9 by omega), h1]
    intro heq
    have heq' : mrz_check_digit (sub l2 0 9) = mrz_check_digit (sub (l2.set p c') 0 9) := by
      exact_mod_cast heq
    exact flip_breaks_check l2 p 0 9 c' hlen2 (by omega) (by omega) hp hd hc' hne heq'.symm
  · rintro ⟨hp1, hp2⟩
    have h1 := (rule_dob_nil_iff fields _ l2 hv hL (by omega)).mp hdob
    rw [parseFields_dob_check] at h1
    rw [hm', Ne, rule_dob_nil_iff fields _ (l2.set p c') hv' hL' (by omega)]
    rw [parseFields_dob_check, checkIntAt_set_ne (show p ≠ 19 by omega), h1]
    intro heq
    have heq' : mrz_check_digit (sub l2 13 19) =
        mrz_check_digit (sub (l2.set p c') 13 19) := by
      exact_mod_cast heq
    exact flip_breaks_check l2 p 13 19 c' hlen2 (by omega) hp1 hp2 hd hc' hne heq'.symm
  · rintro ⟨hp1, hp2⟩
    have h1 := (rule_doe_nil_iff fields _ l2 hv hL (by omega)).mp hdoe
    rw [parseFields_doe_check] at h1
    rw [hm', Ne, rule_doe_nil_iff fields _ (l2.set p c') hv' hL' (by omega)]
    rw [parseFields_doe_check, checkIntAt_set_ne (show p ≠ 27 by omega), h1]
    intro heq
    have heq' : mrz_check_digit (sub l2 21 27) =
        mrz_check_digit (sub (l2.set p c') 21 27) := by
      exact_mod_cast heq
    exact flip_breaks_check l2 p 21 27 c' hlen2 (by omega) hp1 hp2 hd hc' hne heq'.symm

/-- C2 witness: flipping digit position 1 of the scenario line 2 from 0 to 5
triggers the document-number checksum rule. -/
theorem C2_tamper_witness :
    (1 < 9 →
      rule_doc_number_check kalkanFields
        (some (parse_mrz_td3 scenarioL1 (scenarioL2.set 1 '5'))) ≠ []) ∧
    (13 ≤ 1 ∧ 1 < 19 →
      rule_dob_check kalkanFields
        (some (parse_mrz_td3 scenarioL1 (scenarioL2.set 1 '5'))) ≠ []) ∧
    (21 ≤ 1 ∧ 1 < 27 →
      rule_doe_check kalkanFields
        (some (parse_mrz_td3 scenarioL1 (scenarioL2.set 1 '5'))) ≠ []) :=
  C2_tamper kalkanFields scenarioL1 scenarioL2 1 '5' (by decide) (by decide) (by decide)
    (by decide) (by decide) (by decide) (by decide) (by decide) (by decide) (by decide)

-- ── Engine-loop lemmas (for C8, C9) ─────────────────────────────────

theorem insertIfAbsent_nodup {s : List String} {x : String} (h : s.Nodup) :
    (insertIfAbsent s x).Nodup := by
  unfold insertIfAbsent
  split_ifs with hx
  · exact h
  · simp [List.nodup_append, h, hx]

theorem mem_insertIfAbsent {s : List String} {x y : String} :
    y ∈ insertIfAbsent s x ↔ y ∈ s ∨ y = x := by
  unfold insertIfAbsent
  split_ifs with hx
  · constructor
    · exact Or.inl
    · rintro (h | rfl)
      · exact h
      · exact hx
  · simp

theorem foldl_insert_mem {rvs : List (String × String)} {s : List String} {rid y : String} :
    y ∈ rvs.foldl (fun acc _ => insertIfAbsent acc rid) s ↔
      y ∈ s ∨ (rvs ≠ [] ∧ y = rid) := by
  induction rvs generalizing s with
  | nil => simp
  | cons a t ih =>
    simp only [List.foldl_cons, ih, mem_insertIfAbsent]
    constructor
    · rintro ((h | h) | ⟨-, h⟩)
      · exact Or.inl h
      · exact Or.inr ⟨by simp, h⟩
      · exact Or.inr ⟨by simp, h⟩
    · rintro (h | ⟨-, h⟩)
      · exact Or.inl (Or.inl h)
      · exact Or.inl (Or.inr h)

theorem foldl_insert_nodup {rvs : List (String × String)} {s : List String} {rid : String}
    (h : s.Nodup) : (rvs.foldl (fun acc _ => insertIfAbsent acc rid) s).Nodup := by
  induction rvs generalizing s with
  | nil => exact h
  | cons a t ih => exact ih (insertIfAbsent_nodup h)

/-- Behaviour of the rule loop over rules that never raise: the violation
list is appended to, the failed-id set is duplicate-free, and its members are
exactly the old members plus the rule ids of the new violations. -/
theorem runRulesFrom_ok_spec (fields : Fields) (mrz : Option MRZParsed) :
    ∀ (rules : List RuleSpec) (vs : List RuleViolation) (fs : List String),
      (∀ r ∈ rules, ∀ e : String, r.2.2 fields mrz ≠ Except.error e) →
      fs.Nodup →
      (runRulesFrom fields mrz rules vs fs).2.Nodup ∧
      ∃ delta : List RuleViolation,
        (runRulesFrom fields mrz rules vs fs).1 = vs ++ delta ∧
        (∀ y, y ∈ (runRulesFrom fields mrz rules vs fs).2 ↔
          y ∈ fs ∨ y ∈ delta.map RuleViolation.rule_id) := by
  intro rules
  induction rules with
  | nil =>
    intro vs fs _ hnd
    exact ⟨hnd, [], by simp [runRulesFrom], by simp [runRulesFrom]⟩
  | cons r rest ih =>
    intro vs fs hall hnd
    cases hr : r.2.2 fields mrz with
    | error e => exact absurd hr (hall r (by simp) e)
    | ok rvs =>
      have hall' : ∀ r' ∈ rest, ∀ e : String, r'.2.2 fields mrz ≠ Except.error e :=
        fun r' hr' => hall r' (by simp [hr'])
      have hnd' := @foldl_insert_nodup rvs fs r.1 hnd
      obtain ⟨hnodup, delta, hdelta, hmem⟩ :=
        ih (vs ++ rvs.map (fun sd => ⟨r.1, r.2.1, sd.1, sd.2⟩))
          (rvs.foldl (fun acc _ => insertIfAbsent acc r.1) fs) hall' hnd'
      have hrun : runRulesFrom fields mrz (r :: rest) vs fs =
          runRulesFrom fields mrz rest
            (vs ++ rvs.map (fun sd => ⟨r.1, r.2.1, sd.1, sd.2⟩))
            (rvs.foldl (fun acc _ => insertIfAbsent acc r.1) fs) := by
        simp [runRulesFrom, hr]
      rw [hrun]
      refine ⟨hnodup, rvs.map (fun sd => ⟨r.1, r.2.1, sd.1, sd.2⟩) ++ delta, ?_, ?_⟩
      · rw [hdelta, List.append_assoc]
      · intro y
        rw [hmem y, foldl_insert_mem]
        simp only [List.map_append, List.map_map, List.mem_append]
        constructor
        · rintro ((h | ⟨hne, rfl⟩) | h)
          · exact Or.inl h
          · refine Or.inr (Or.inl ?_)
            cases rvs with
            | nil => exact absurd rfl hne
            | cons a t => simp [Function.comp]
          · exact Or.inr (Or.inr h)
        · rintro (h | h | h)
          · exact Or.inl (Or.inl h)
          · refine Or.inl (Or.inr ?_)
            simp only [List.mem_map, Function.comp] at h
            obtain ⟨sd, hsd, rfl⟩ := h
            exact ⟨by rintro rfl; exact (List.not_mem_nil sd) hsd, rfl⟩
          · exact Or.inr h

/-- The failed-rule counter of the loop equals the number of distinct rule
identifiers occurring in the returned violations, when no rule raises. -/
theorem runRules_failed_card (rules : List RuleSpec) (fields : Fields)
    (mrz : Option MRZParsed)
    (hall : ∀ r ∈ rules, ∀ e : String, r.2.2 fields mrz ≠ Except.error e) :
    (runRules rules fields mrz).2.length =
      ((runRules rules fields mrz).1.map RuleViolation.rule_id).toFinset.card := by
  obtain ⟨hnodup, delta, h1, h2⟩ :=
    runRulesFrom_ok_spec fields mrz rules [] [] hall List.nodup_nil
  unfold runRules at *
  rw [h1]
  have hfs : (runRulesFrom fields mrz rules [] []).2.toFinset =
      (delta.map RuleViolation.rule_id).toFinset := by
    ext y
    simp only [List.mem_toFinset]
    rw [h2 y]
    simp
  rw [← List.toFinset_card_of_nodup hnodup, hfs]
  simp

/-- Every rule in the passport catalog is wrapped in `Except.ok` and never
raises. -/
theorem passportRules_ok (today : PyDate) :
    ∀ r ∈ passportRules today, ∀ (fields : Fields) (mrz : Option MRZParsed) (e : String),
      r.2.2 fields mrz ≠ Except.error e := by
  intro r hr fields mrz e
  fin_cases hr <;> exact fun h => Except.noConfusion h

theorem apply_failed_eq (today : PyDate) (fields : Fields) :
    (apply today fields).rules_failed =
      (runRules (passportRules today) fields (mrzOf fields)).2.length := rfl

theorem apply_violations_eq (today : PyDate) (fields : Fields) :
    (apply today fields).violations =
      (runRules (passportRules today) fields (mrzOf fields)).1 := rfl

-- ── C8 ──────────────────────────────────────────────────────────────

/-- C8: `rules_failed` equals the number of distinct rule identifiers with at
least one violation in the returned list (not the total violation count);
`rules_passed = rules_total - rules_failed` and `rules_total = 10`. -/
theorem C8_failed_counts (today : PyDate) (fields : Fields) :
    (apply today fields).rules_failed =
      ((apply today fields).violations.map RuleViolation.rule_id).toFinset.card ∧
    (apply today fields).rules_passed =
      (apply today fields).rules_total - (apply today fields).rules_failed ∧
    (apply today fields).rules_total = 10 := by
  refine ⟨?_, rfl, rfl⟩
  rw [apply_failed_eq, apply_violations_eq]
  exact runRules_failed_card _ _ _
    (fun r hr e => passportRules_ok today r hr fields (mrzOf fields) e)

-- ── C9 helper lemmas ────────────────────────────────────────────────

theorem runRulesFrom_fst_shift (fields : Fields) (mrz : Option MRZParsed) :
    ∀ (rules : List RuleSpec) (vs : List RuleViolation) (fs fs' : List String),
      (runRulesFrom fields mrz rules vs fs).1 =
        vs ++ (runRulesFrom fields mrz rules [] fs').1 := by
  intro rules
  induction rules with
  | nil => intro vs fs fs'; simp [runRulesFrom]
  | cons r t ih =>
    intro vs fs fs'
    cases hr : r.2.2 fields mrz with
    | ok rvs =>
      simp only [runRulesFrom, hr]
      rw [ih (vs ++ _) _ fs', ih (([] : List RuleViolation) ++ _) _ fs']
      simp
    | error e =>
      simp only [runRulesFrom, hr]
      rw [ih (vs ++ _) _ fs', ih (([] : List RuleViolation) ++ _) _ fs']
      simp

theorem violationsOf_cons_ok {fields : Fields} {mrz : Option MRZParsed} {r : RuleSpec}
    {rest : List RuleSpec} {rvs : List (String × String)}
    (h : r.2.2 fields mrz = Except.ok rvs) :
    violationsOf (r :: rest) fields mrz =
      rvs.map (fun sd => ⟨r.1, r.2.1, sd.1, sd.2⟩) ++ violationsOf rest fields mrz := by
  unfold violationsOf runRules
  simp only [runRulesFrom, h]
  rw [runRulesFrom_fst_shift fields mrz rest _ _ []]
  simp

theorem violationsOf_cons_error {fields : Fields} {mrz : Option MRZParsed} {r : RuleSpec}
    {rest : List RuleSpec} {e : String} (h : r.2.2 fields mrz = Except.error e) :
    violationsOf (r :: rest) fields mrz =
      ⟨r.1, r.2.1, "LOW", "Rule execution error: " ++ e⟩ :: violationsOf rest fields mrz := by
  unfold violationsOf runRules
  simp only [runRulesFrom, h]
  rw [runRulesFrom_fst_shift fields mrz rest _ _ []]
  simp

theorem violationsOf_append (rules1 rules2 : List RuleSpec) (fields : Fields)
    (mrz : Option MRZParsed) :
    violationsOf (rules1 ++ rules2) fields mrz =
      violationsOf rules1 fields mrz ++ violationsOf rules2 fields mrz := by
  induction rules1 with
  | nil => rfl
  | cons r t ih =>
    cases hr : r.2.2 fields mrz with
    | ok rvs =>
      rw [List.cons_append, violationsOf_cons_ok hr, violationsOf_cons_ok hr, ih,
        List.append_assoc]
    | error e =>
      rw [List.cons_append, violationsOf_cons_error hr, violationsOf_cons_error hr, ih,
        List.cons_append]

theorem violationsOf_ids (rules : List RuleSpec) (fields : Fields) (mrz : Option MRZParsed) :
    ∀ v ∈ violationsOf rules fields mrz, v.rule_id ∈ ruleIds rules := by
  induction rules with
  | nil => intro v hv; exact absurd hv (List.not_mem_nil v)
  | cons r t ih =>
    intro v hv
    cases hr : r.2.2 fields mrz with
    | ok rvs =>
      rw [violationsOf_cons_ok hr, List.mem_append] at hv
      rcases hv with hv | hv
      · obtain ⟨sd, _, rfl⟩ := List.mem_map.mp hv
        exact List.mem_cons_self _ _
      · simp only [ruleIds, List.map_cons, List.mem_cons]
        exact Or.inr (ih v hv)
    | error e =>
      rw [violationsOf_cons_error hr, List.mem_cons] at hv
      rcases hv with rfl | hv
      · exact List.mem_cons_self _ _
      · simp only [ruleIds, List.map_cons, List.mem_cons]
        exact Or.inr (ih v hv)

-- ── C9 ──────────────────────────────────────────────────────────────

/-- C9: the rule loop is exception-isolated.  If one rule raises, the loop
(and hence `apply`, which is a total function of its result) still returns:
it records exactly one LOW-severity "Rule execution error" violation for that
rule's identifier, and the violations of all preceding and remaining rules
are produced unchanged. -/
theorem C9_exception_isolated (fields : Fields) (mrz : Option MRZParsed)
    (pre post : List RuleSpec) (rid rname : String) (fn : RuleFn) (e : String)
    (herr : fn fields mrz = Except.error e)
    (hpre : rid ∉ ruleIds pre) (hpost : rid ∉ ruleIds post) :
    violationsOf (pre ++ (rid, rname, fn) :: post) fields mrz =
      violationsOf pre fields mrz ++
        ⟨rid, rname, "LOW", "Rule execution error: " ++ e⟩ ::
          violationsOf post fields mrz ∧
    (violationsOf (pre ++ (rid, rname, fn) :: post) fields mrz).filter
        (fun v => v.rule_id = rid) =
      [⟨rid, rname, "LOW", "Rule execution error: " ++ e⟩] := by
  have herr' : ((rid, rname, fn) : RuleSpec).2.2 fields mrz = Except.error e := herr
  have hsplit : violationsOf (pre ++ (rid, rname, fn) :: post) fields mrz =
      violationsOf pre fields mrz ++
        ⟨rid, rname, "LOW", "Rule execution error: " ++ e⟩ ::
          violationsOf post fields mrz := by
    rw [violationsOf_append, violationsOf_cons_error herr']
  refine ⟨hsplit, ?_⟩
  rw [hsplit, List.filter_append, List.filter_cons]
  have hfpre : (violationsOf pre fields mrz).filter (fun v => v.rule_id = rid) = [] := by
    rw [List.filter_eq_nil_iff]
    intro v hv
    have hid := violationsOf_ids pre fields mrz v hv
    simp only [decide_eq_true_eq]
    rintro rfl
    exact hpre hid
  have hfpost : (violationsOf post fields mrz).filter (fun v => v.rule_id = rid) = [] := by
    rw [List.filter_eq_nil_iff]
    intro v hv
    have hid := violationsOf_ids post fields mrz v hv
    simp only [decide_eq_true_eq]
    rintro rfl
    exact hpost hid
  rw [hfpre, hfpost]
  simp

/-- C9 witness: a raising rule inserted between MRZ_FORMAT and REQUIRED_FIELDS
yields exactly its own LOW "Rule execution error" violation while both real
rules still run. -/
theorem C9_exception_isolated_witness :
    violationsOf
        ([("MRZ_FORMAT", "MRZ Format Validation",
            fun f m => Except.ok (rule_mrz_format f m))] ++
          ("BOOM_RULE", "Boom", boomRule) ::
            [("REQUIRED_FIELDS", "Required Fields Presence",
              fun f m => Except.ok (rule_required_fields f m))]) [] none =
      violationsOf
        [("MRZ_FORMAT", "MRZ Format Validation",
          fun f m => Except.ok (rule_mrz_format f m))] [] none ++
        ⟨"BOOM_RULE", "Boom", "LOW", "Rule execution error: " ++ "boom"⟩ ::
          violationsOf
            [("REQUIRED_FIELDS", "Required Fields Presence",
              fun f m => Except.ok (rule_required_fields f m))] [] none ∧
    (violationsOf
        ([("MRZ_FORMAT", "MRZ Format Validation",
            fun f m => Except.ok (rule_mrz_format f m))] ++
          ("BOOM_RULE", "Boom", boomRule) ::
            [("REQUIRED_FIELDS", "Required Fields Presence",
              fun f m => Except.ok (rule_required_fields f m))]) [] none).filter
        (fun v => v.rule_id = "BOOM_RULE") =
      [⟨"BOOM_RULE", "Boom", "LOW", "Rule execution error: " ++ "boom"⟩] :=
  C9_exception_isolated [] none _ _ "BOOM_RULE" "Boom" boomRule "boom" rfl
    (by decide) (by decide)

end FraudDoc
